import Mathlib

/-!
Shallow embedding of the solana-indexer chain poller (Rust sources under
src/) and verification of the frozen claims about it.

Modelling conventions:
- u64 values are Nat; the single i64-to-u64 cast in the source is modelled
  with an explicit reduction modulo 2 to the 64.
- anyhow Results are Except String, persistence Results are
  Except PersistenceError.
- The four external collaborators behind trait objects (chain client, log
  decoder, slot handler) are oracles packed in a World structure; the
  in-memory persistence (memory.rs) is embedded concretely as explicit
  state passing.
- Handler dispatches and client slot fetches are recorded in an event
  trace so that ordering and delivery claims are statable.
-/

namespace SolanaIndexer

/-- chain_pollers/persistence.rs: SlotRecord, the unit of persisted chain
state. ChainId (crate config) is an integer, modelled as Nat. -/
structure SlotRecord where
  slot : Nat
  blockhash : String
  parent : Nat
  block_time : Nat
  chain_id : Nat
  deriving DecidableEq, Repr

/-- clients/solana/types.rs: SolanaInstruction. -/
structure SolanaInstruction where
  program_id_index : Nat
  accounts : List Nat
  data : String
  deriving DecidableEq, Repr

/-- clients/solana/types.rs: SolanaInnerInstruction. -/
structure SolanaInnerInstruction where
  index : Nat
  instructions : List SolanaInstruction
  deriving DecidableEq, Repr

/-- clients/solana/types.rs: SolanaTransaction. -/
structure SolanaTransaction where
  signature : String
  slot : Nat
  block_time : Option Int
  fee : Nat
  success : Bool
  account_keys : List String
  program_ids : List String
  log_messages : List String
  pre_balances : List Nat
  post_balances : List Nat
  inner_instructions : List SolanaInnerInstruction
  deriving DecidableEq, Repr

/-- clients/solana/types.rs: SolanaSlot, the transient value returned by
the chain client; parent and block_time may be absent. -/
structure SolanaSlot where
  slot : Nat
  parent : Option Nat
  blockhash : String
  block_time : Option Int
  transactions : List SolanaTransaction
  chain_id : Nat
  deriving DecidableEq, Repr

/-- clients/solana/types.rs: SolanaProgramLog. -/
structure SolanaProgramLog where
  program_id : String
  log_index : Nat
  signature : String
  slot : Nat
  block_time : Option Int
  log_message : String
  instruction_index : Nat
  deriving DecidableEq, Repr

/-- serde_json values as far as this repository produces them: the
transaction_log_parser only ever stores JSON strings. -/
inductive JsonValue where
  | str (s : String)
  deriving DecidableEq, Repr

/-- transaction_log_parser/parser.rs: Argument. -/
structure Argument where
  name : String
  arg_type : String
  value : JsonValue
  indexed : Bool
  deriving DecidableEq, Repr

/-- transaction_log_parser/parser.rs: DecodedLog; output_data is a
HashMap String Value, modelled as an association list. -/
structure DecodedLog where
  log_index : Nat
  address : String
  arguments : List Argument
  event_name : String
  output_data : List (String × JsonValue)
  deriving DecidableEq, Repr

/-- chain_pollers/persistence.rs: LogWithSlot, the handler dispatch
envelope. -/
structure LogWithSlot where
  log : DecodedLog
  raw_log : SolanaProgramLog
  slot : SolanaSlot
  deriving DecidableEq, Repr

/-- chain_pollers/persistence.rs: PersistenceError. -/
inductive PersistenceError where
  | NotFound
  | AlreadyExists
  | StoreClosed
  | InvalidChainId
  | Other (msg : String)
  deriving DecidableEq, Repr

/-- Rust str::starts_with, embedded structurally over the char list so
that concrete instances evaluate inside the kernel. -/
def starts_with (s head : String) : Bool := head.data.isPrefixOf s.data

/-- Rust str::to_lowercase, embedded structurally over the char list. -/
def to_lowercase (s : String) : String := ⟨s.data.map Char.toLower⟩

/-- The thiserror display strings of persistence.rs. -/
def PersistenceError.message : PersistenceError → String
  | .NotFound => "Item not found"
  | .AlreadyExists => "Item already exists"
  | .StoreClosed => "Storage is closed"
  | .InvalidChainId => "Invalid chain ID"
  | .Other m => "Other error: " ++ m

/-- chain_pollers/persistence/memory.rs: InMemoryChainPollerPersistence.
The two DashMaps are modelled as String-keyed partial functions and the
closed flag as a Bool; the poller is single-tasked so lock behaviour
collapses to sequential state passing. -/
structure InMemoryChainPollerPersistence where
  last_processed_slots : String → Option Nat
  slots : String → Option SlotRecord
  closed : Bool

namespace InMemoryChainPollerPersistence

/-- memory.rs new(): empty maps, not closed. -/
def new : InMemoryChainPollerPersistence :=
  { last_processed_slots := fun _ => none
    slots := fun _ => none
    closed := false }

/-- memory.rs make_slot_key. -/
def make_slot_key (chain_id : Nat) : String := toString chain_id

/-- memory.rs make_slot_record_key. -/
def make_slot_record_key (chain_id slot_number : Nat) : String :=
  "slot:" ++ toString chain_id ++ ":" ++ toString slot_number

/-- memory.rs get_last_processed_slot: pointer lookup then record lookup;
a dangling pointer yields none. -/
def get_last_processed_slot (s : InMemoryChainPollerPersistence)
    (chain_id : Nat) : Except PersistenceError (Option SlotRecord) :=
  if s.closed then .error .StoreClosed
  else
    match s.last_processed_slots (make_slot_key chain_id) with
    | none => .ok none
    | some slot_num =>
      match s.slots (make_slot_record_key chain_id slot_num) with
      | some v => .ok (some v)
      | none => .ok none

/-- memory.rs save_slot: inserts the record and unconditionally moves the
per-chain last-processed pointer to the saved slot. -/
def save_slot (s : InMemoryChainPollerPersistence) (slot : SlotRecord) :
    Except PersistenceError InMemoryChainPollerPersistence :=
  if s.closed then .error .StoreClosed
  else
    .ok { s with
      slots := fun k =>
        if k = make_slot_record_key slot.chain_id slot.slot then some slot
        else s.slots k
      last_processed_slots := fun k =>
        if k = make_slot_key slot.chain_id then some slot.slot
        else s.last_processed_slots k }

/-- memory.rs get_slot. -/
def get_slot (s : InMemoryChainPollerPersistence)
    (chain_id slot_number : Nat) :
    Except PersistenceError (Option SlotRecord) :=
  if s.closed then .error .StoreClosed
  else
    match s.slots (make_slot_record_key chain_id slot_number) with
    | some v => .ok (some v)
    | none => .ok none

/-- memory.rs delete_slot: removing an absent record errors NotFound. -/
def delete_slot (s : InMemoryChainPollerPersistence)
    (chain_id slot_number : Nat) :
    Except PersistenceError InMemoryChainPollerPersistence :=
  if s.closed then .error .StoreClosed
  else
    match s.slots (make_slot_record_key chain_id slot_number) with
    | none => .error .NotFound
    | some _ =>
      .ok { s with
        slots := fun k =>
          if k = make_slot_record_key chain_id slot_number then none
          else s.slots k }

/-- memory.rs close. -/
def close (s : InMemoryChainPollerPersistence) :
    Except PersistenceError InMemoryChainPollerPersistence :=
  if s.closed then .error .StoreClosed
  else
    .ok { last_processed_slots := fun _ => none
          slots := fun _ => none
          closed := true }

end InMemoryChainPollerPersistence

/-- The shape of the getProgramLogs RPC result parsed inside
clients/solana/client.rs get_program_logs (ContextInfo). -/
structure ContextInfo where
  slot : Nat
  deriving DecidableEq, Repr

/-- client.rs get_program_logs: ProgramLogEntry. -/
structure ProgramLogEntry where
  signature : String
  logs : List String
  deriving DecidableEq, Repr

/-- client.rs get_program_logs: ProgramLogsResult. -/
structure ProgramLogsResult where
  context : ContextInfo
  value : List ProgramLogEntry
  deriving DecidableEq, Repr

/-- client.rs get_program_logs, inner loop over one entry: enumerate the
entry log lines, keep those whose message starts with
"Program <program_id>", and build a SolanaProgramLog from each kept line
with the response context slot, index i, block_time None and
instruction_index 0. -/
def collect_entry_logs (program_id : String) (ctx_slot : Nat)
    (sig : String) : List (Nat × String) → List SolanaProgramLog
  | [] => []
  | (i, log_msg) :: rest =>
    if starts_with log_msg ("Program " ++ program_id) then
      { program_id := program_id
        log_index := i
        signature := sig
        slot := ctx_slot
        block_time := none
        log_message := log_msg
        instruction_index := 0 } :: collect_entry_logs program_id ctx_slot sig rest
    else collect_entry_logs program_id ctx_slot sig rest

/-- client.rs get_program_logs, the pure post-RPC part (lines 246-268):
given the parsed RPC result, flatten the per-entry kept lines in entry
order. The from_slot and to_slot arguments are received but not used by
the source (they carry no influence on the request or the filtering);
they are kept here to mirror the signature. -/
def get_program_logs (program_id : String) (_from_slot _to_slot : Nat)
    (res : ProgramLogsResult) : List SolanaProgramLog :=
  (res.value.map (fun entry =>
    collect_entry_logs program_id res.context.slot entry.signature
      entry.logs.enum)).flatten

/-- solana.rs: SolanaChainPollerConfig. polling_interval is a Duration,
irrelevant to the control flow; kept as Nat milliseconds. -/
structure SolanaChainPollerConfig where
  chain_id : Nat
  polling_interval : Nat
  interesting_programs : List String
  max_reorg_depth : Nat
  slot_history_size : Nat
  reorg_check_enabled : Bool
  deriving DecidableEq, Repr

/-- solana.rs SolanaChainPoller::new, the config-normalization part
(lines 52-61): a zero max_reorg_depth becomes 10, a zero
slot_history_size becomes 100, and reorg_check_enabled is forced true
when it was false while max_reorg_depth is positive. -/
def SolanaChainPoller.new_config (config : SolanaChainPollerConfig) :
    SolanaChainPollerConfig :=
  let c1 :=
    if config.max_reorg_depth = 0 then { config with max_reorg_depth := 10 }
    else config
  let c2 :=
    if c1.slot_history_size = 0 then { c1 with slot_history_size := 100 }
    else c1
  if !c2.reorg_check_enabled && c2.max_reorg_depth > 0 then
    { c2 with reorg_check_enabled := true }
  else c2

/-- The Rust expression (x as u64) applied to an i64: reduction modulo
2 to the 64. -/
def i64_as_u64 (i : Int) : Nat := (i % ((2 : Int) ^ 64)).toNat

/-- The record constructed from a fetched SolanaSlot in solana.rs (the
same construction appears at lines 112-118, 277-283 and 429-435):
parent defaults to 0 and block_time to 0 when absent. -/
def slot_record_of (chain_id : Nat) (slot : SolanaSlot) : SlotRecord :=
  { slot := slot.slot
    blockhash := slot.blockhash
    parent := slot.parent.getD 0
    block_time := i64_as_u64 (slot.block_time.getD 0)
    chain_id := chain_id }

/-- Observable events of one poller run: chain-client slot fetches, the
reorg warning of solana.rs line 193, and the three handler dispatches. -/
inductive Event where
  | fetchSlot (slot_number : Nat)
  | reorgDetected (slot_number expected_parent actual_parent : Nat)
  | handleSlot (slot : SolanaSlot)
  | handleLog (log_with_slot : LogWithSlot)
  | handleReorg (slot_number : Nat)
  deriving DecidableEq, Repr

/-- The external collaborators reached through trait objects, as oracles:
the chain client (get_latest_slot, get_slot_by_number, get_program_logs),
the log decoder and the fallible slot-handler callbacks. handle_reorg_slot
has no error channel in the source, so it needs no oracle. -/
structure World where
  latestSlot : Except String Nat
  slotByNumber : Nat → Except String SolanaSlot
  programLogs : String → Nat → Nat → Except String (List SolanaProgramLog)
  decodeLog : String → SolanaProgramLog → Except String DecodedLog
  handleSlotRes : SolanaSlot → Except String Unit
  handleLogRes : LogWithSlot → Except String Unit

/-- Outcome of a stateful poller step: the persistence state after the
step, the trace of observable events it emitted, in order, and its
return value. -/
structure Out (α : Type) where
  state : InMemoryChainPollerPersistence
  trace : List Event
  result : Except String α

namespace SolanaChainPoller

open InMemoryChainPollerPersistence

/-- solana.rs fetch_logs_for_interesting_programs_for_slot, loop over the
effective program list: the first client failure aborts with the
formatted message, successful fetches are concatenated in order. -/
def fetch_logs_loop (w : World) (slot_number : Nat) :
    List String → Except String (List SolanaProgramLog)
  | [] => .ok []
  | program :: rest =>
    match w.programLogs program slot_number slot_number with
    | .error e =>
      .error ("Failed to fetch logs for program " ++ program ++ ": " ++ e)
    | .ok logs =>
      match fetch_logs_loop w slot_number rest with
      | .error e => .error e
      | .ok more => .ok (logs ++ more)

/-- solana.rs fetch_logs_for_interesting_programs_for_slot (lines
293-365): drop empty program ids, lower-case the rest, then fetch each
program's logs for the single-slot range. -/
def fetch_logs_for_interesting_programs_for_slot (w : World)
    (cfg : SolanaChainPollerConfig) (slot_number : Nat) :
    Except String (List SolanaProgramLog) :=
  fetch_logs_loop w slot_number
    ((cfg.interesting_programs.filter (fun p => !p.isEmpty)).map
      to_lowercase)

/-- solana.rs process_slot_logs, loop over the fetched logs (lines
256-273) followed by the record save (lines 277-290): a decode failure or
a handle_log failure aborts before the save; after all logs are
dispatched the SlotRecord is saved (moving the last-processed pointer)
and returned. -/
def process_logs_loop (w : World) (cfg : SolanaChainPollerConfig)
    (s : InMemoryChainPollerPersistence) (slot : SolanaSlot) :
    List SolanaProgramLog → Out (Option SlotRecord)
  | [] =>
    match save_slot s (slot_record_of cfg.chain_id slot) with
    | .error _ => ⟨s, [], .error "Failed to save slot info"⟩
    | .ok s1 => ⟨s1, [], .ok (some (slot_record_of cfg.chain_id slot))⟩
  | log :: rest =>
    match w.decodeLog log.program_id log with
    | .error _ => ⟨s, [], .error "Failed to decode log"⟩
    | .ok decoded_log =>
      match w.handleLogRes ⟨decoded_log, log, slot⟩ with
      | .error e => ⟨s, [.handleLog ⟨decoded_log, log, slot⟩], .error e⟩
      | .ok _ =>
        let o := process_logs_loop w cfg s slot rest
        ⟨o.state, .handleLog ⟨decoded_log, log, slot⟩ :: o.trace, o.result⟩

/-- solana.rs process_slot_logs (lines 240-291). -/
def process_slot_logs (w : World) (cfg : SolanaChainPollerConfig)
    (s : InMemoryChainPollerPersistence) (slot : SolanaSlot) :
    Out (Option SlotRecord) :=
  match fetch_logs_for_interesting_programs_for_slot w cfg slot.slot with
  | .error e => ⟨s, [], .error ("Error fetching logs for slot: " ++ e)⟩
  | .ok logs => process_logs_loop w cfg s slot logs

/-- The slot numbers visited by find_orphaned_slots (solana.rs lines
405-407): Rust (start.saturating_sub(max_depth)..start).rev(), i.e. the
numbers from start - 1 down to start - max_depth, truncated at 0. -/
def desc_range (start_slot_number max_depth : Nat) : List Nat :=
  (List.range' (start_slot_number - max_depth)
    (min max_depth start_slot_number)).reverse

/-- solana.rs find_orphaned_slots, loop body (lines 405-480): a visited
slot number 0 stops the walk (falling through to return the accumulated
list); otherwise the canonical slot is fetched, the stored record is read
(synthesized from the canonical slot and best-effort saved when absent),
a blockhash mismatch appends the record and continues, and a match
re-saves the record and returns the accumulated list immediately. -/
def find_orphans_loop (w : World) (cfg : SolanaChainPollerConfig)
    (s : InMemoryChainPollerPersistence) (acc : List SlotRecord) :
    List Nat → Out (List SlotRecord)
  | [] => ⟨s, [], .ok acc⟩
  | n :: rest =>
    if n = 0 then ⟨s, [], .ok acc⟩
    else
      match w.slotByNumber n with
      | .error _ =>
        ⟨s, [.fetchSlot n],
          .error ("Failed to fetch slot " ++ toString n ++ " from chain")⟩
      | .ok canon_parent_slot =>
        match get_slot s cfg.chain_id n with
        | .error e =>
          ⟨s, [.fetchSlot n],
            .error ("Failed to fetch slot " ++ toString n ++ ": "
              ++ e.message)⟩
        | .ok stored =>
          let keep :
              InMemoryChainPollerPersistence × SlotRecord :=
            match stored with
            | some record => (s, record)
            | none =>
              let record := slot_record_of cfg.chain_id canon_parent_slot
              match save_slot s record with
              | .ok s1 => (s1, record)
              | .error _ => (s, record)
          if canon_parent_slot.blockhash ≠ keep.2.blockhash then
            let o := find_orphans_loop w cfg keep.1 (acc ++ [keep.2]) rest
            ⟨o.state, .fetchSlot n :: o.trace, o.result⟩
          else
            match save_slot keep.1 keep.2 with
            | .error _ =>
              ⟨keep.1, [.fetchSlot n], .error "Failed to save parent slot"⟩
            | .ok s2 => ⟨s2, [.fetchSlot n], .ok acc⟩

/-- solana.rs find_orphaned_slots (lines 397-484). -/
def find_orphaned_slots (w : World) (cfg : SolanaChainPollerConfig)
    (s : InMemoryChainPollerPersistence) (start_slot : SolanaSlot)
    (max_depth : Nat) : Out (List SlotRecord) :=
  find_orphans_loop w cfg s [] (desc_range start_slot.slot max_depth)

/-- Spec-side comparison definition for the ancestry walk, written from
the spec wording: the slot numbers in the range
[max(1, start_slot.slot - max_depth), start_slot.slot) traversed in
descending order. Defined only to be compared against desc_range plus
the loop break at 0. -/
def spec_desc_range (start_slot_number max_depth : Nat) : List Nat :=
  (List.range' (max 1 (start_slot_number - max_depth))
    (start_slot_number - max 1 (start_slot_number - max_depth))).reverse

/-- Spec-side comparison definition for the ancestry walk body, written
from the spec wording of find_orphaned_slots step by step: fetch the
canonical slot (propagating a fetch failure), read the stored record
(using it when present, synthesizing from the canonical slot with a
best-effort save when absent, propagating a read error), append the
record and continue on a blockhash mismatch, and on a match re-save the
record and return the accumulated list; an exhausted range returns the
accumulated list. It differs from find_orphans_loop only in carrying no
slot-number-0 stop, because its range never contains 0. -/
def spec_orphans_loop (w : World) (cfg : SolanaChainPollerConfig)
    (s : InMemoryChainPollerPersistence) (acc : List SlotRecord) :
    List Nat → Out (List SlotRecord)
  | [] => ⟨s, [], .ok acc⟩
  | n :: rest =>
    match w.slotByNumber n with
    | .error _ =>
      ⟨s, [.fetchSlot n],
        .error ("Failed to fetch slot " ++ toString n ++ " from chain")⟩
    | .ok canon_parent_slot =>
      match get_slot s cfg.chain_id n with
      | .error e =>
        ⟨s, [.fetchSlot n],
          .error ("Failed to fetch slot " ++ toString n ++ ": "
            ++ e.message)⟩
      | .ok stored =>
        let keep :
            InMemoryChainPollerPersistence × SlotRecord :=
          match stored with
          | some record => (s, record)
          | none =>
            let record := slot_record_of cfg.chain_id canon_parent_slot
            match save_slot s record with
            | .ok s1 => (s1, record)
            | .error _ => (s, record)
        if canon_parent_slot.blockhash ≠ keep.2.blockhash then
          let o := spec_orphans_loop w cfg keep.1 (acc ++ [keep.2]) rest
          ⟨o.state, .fetchSlot n :: o.trace, o.result⟩
        else
          match save_slot keep.1 keep.2 with
          | .error _ =>
            ⟨keep.1, [.fetchSlot n], .error "Failed to save parent slot"⟩
          | .ok s2 => ⟨s2, [.fetchSlot n], .ok acc⟩

/-- Spec-side comparison definition: find_orphaned_slots as the spec
words it. -/
def spec_find_orphaned_slots (w : World) (cfg : SolanaChainPollerConfig)
    (s : InMemoryChainPollerPersistence) (start_slot : SolanaSlot)
    (max_depth : Nat) : Out (List SlotRecord) :=
  spec_orphans_loop w cfg s [] (spec_desc_range start_slot.slot max_depth)

/-- solana.rs reconcile_reorg, loop over the orphaned slots (lines
377-392): handle_reorg_slot is dispatched first (it cannot fail), then
the record is deleted; a NotFound deletion error is tolerated, any other
deletion error aborts with the formatted message. -/
def reconcile_orphans (s : InMemoryChainPollerPersistence) :
    List SlotRecord → Out Unit
  | [] => ⟨s, [], .ok ()⟩
  | orphaned_slot :: rest =>
    match InMemoryChainPollerPersistence.delete_slot s
        orphaned_slot.chain_id orphaned_slot.slot with
    | .ok s1 =>
      let o := reconcile_orphans s1 rest
      ⟨o.state, .handleReorg orphaned_slot.slot :: o.trace, o.result⟩
    | .error .NotFound =>
      let o := reconcile_orphans s rest
      ⟨o.state, .handleReorg orphaned_slot.slot :: o.trace, o.result⟩
    | .error e =>
      ⟨s, [.handleReorg orphaned_slot.slot],
        .error ("Failed to delete orphaned slot: " ++ e.message)⟩

/-- solana.rs reconcile_reorg (lines 367-395): an empty orphan list is an
error; otherwise the orphans are handled and deleted in the order
returned by find_orphaned_slots. -/
def reconcile_reorg (w : World) (cfg : SolanaChainPollerConfig)
    (s : InMemoryChainPollerPersistence) (start_slot : SolanaSlot) :
    Out Unit :=
  let f := find_orphaned_slots w cfg s start_slot cfg.max_reorg_depth
  match f.result with
  | .error e =>
    ⟨f.state, f.trace, .error ("Failed to find orphaned slots: " ++ e)⟩
  | .ok orphaned_slots =>
    if orphaned_slots.isEmpty then
      ⟨f.state, f.trace, .error "No orphaned slots found"⟩
    else
      let o := reconcile_orphans f.state orphaned_slots
      ⟨o.state, f.trace ++ o.trace, o.result⟩

/-- solana.rs process_next_slot, history pruning after one successful
slot (lines 216-232): when slot_history_size is positive and the record
slot exceeds it, the record slot_history_size behind is deleted,
ignoring any deletion error. -/
def prune_step (cfg : SolanaChainPollerConfig)
    (s : InMemoryChainPollerPersistence) (record : SlotRecord) :
    InMemoryChainPollerPersistence :=
  if cfg.slot_history_size > 0 ∧ record.slot > cfg.slot_history_size then
    match InMemoryChainPollerPersistence.delete_slot s cfg.chain_id
        (record.slot - cfg.slot_history_size) with
    | .ok s1 => s1
    | .error _ => s
  else s

/-- solana.rs process_next_slot, loop over slots_to_fetch (lines
184-233). expected_parent is the slot number of the record read at the
start of the tick: the source compares every fetched slot's parent
against latest_slot_record.slot from line 152, because the inner
binding of the same name at line 211 is scoped to one iteration and
does not replace it. On a parent mismatch the reorg is declared,
reconcile_reorg runs with its error logged and discarded (lines
201-203), and the tick returns Ok. On a match handle_slot is dispatched
(its error ignored), process_slot_logs runs (its error aborts the tick
with context), and pruning follows. -/
def process_slots_loop (w : World) (cfg : SolanaChainPollerConfig)
    (s : InMemoryChainPollerPersistence) (expected_parent : Nat) :
    List Nat → Out Unit
  | [] => ⟨s, [], .ok ()⟩
  | slot_num :: rest =>
    match w.slotByNumber slot_num with
    | .error _ =>
      ⟨s, [.fetchSlot slot_num], .error "Failed to fetch slot for reorg check"⟩
    | .ok new_canon_slot =>
      let parent_slot := new_canon_slot.parent.getD 0
      if parent_slot ≠ expected_parent then
        let o := reconcile_reorg w cfg s new_canon_slot
        ⟨o.state,
          .fetchSlot slot_num ::
            .reorgDetected slot_num expected_parent parent_slot :: o.trace,
          .ok ()⟩
      else
        let o := process_slot_logs w cfg s new_canon_slot
        match o.result with
        | .error e =>
          ⟨o.state,
            .fetchSlot slot_num :: .handleSlot new_canon_slot :: o.trace,
            .error ("Error fetching slot with logs: " ++ e)⟩
        | .ok stored =>
          let s2 :=
            match stored with
            | some record => prune_step cfg o.state record
            | none => o.state
          let o2 := process_slots_loop w cfg s2 expected_parent rest
          ⟨o2.state,
            .fetchSlot slot_num :: .handleSlot new_canon_slot ::
              (o.trace ++ o2.trace),
            o2.result⟩

/-- solana.rs process_next_slot (lines 151-238): read the tick-start
record (its absence is an error), read the chain tip, return early when
equal, otherwise walk the ascending range (stored.slot, tip]. -/
def process_next_slot (w : World) (cfg : SolanaChainPollerConfig)
    (s : InMemoryChainPollerPersistence) : Out Unit :=
  match InMemoryChainPollerPersistence.get_last_processed_slot s
      cfg.chain_id with
  | .error _ => ⟨s, [], .error "Error getting last processed slot"⟩
  | .ok none => ⟨s, [], .error "Last processed slot must exist"⟩
  | .ok (some latest_slot_record) =>
    match w.latestSlot with
    | .error _ => ⟨s, [], .error "Error getting latest slot number"⟩
    | .ok latest_slot_num =>
      if latest_slot_record.slot = latest_slot_num then ⟨s, [], .ok ()⟩
      else
        let slots_to_fetch :=
          if latest_slot_num > latest_slot_record.slot then
            List.range' (latest_slot_record.slot + 1)
              (latest_slot_num - latest_slot_record.slot)
          else []
        process_slots_loop w cfg s latest_slot_record.slot slots_to_fetch

end SolanaChainPoller

/-- Projection of a successful save_slot; used to state closed round-trip
facts without naming the updated state by hand. -/
def save_result (s : InMemoryChainPollerPersistence) (r : SlotRecord) :
    InMemoryChainPollerPersistence :=
  match InMemoryChainPollerPersistence.save_slot s r with
  | .ok s1 => s1
  | .error _ => s

/-- A concrete record for round-trip evaluation. -/
def exRec10 : SlotRecord :=
  { slot := 5, blockhash := "h5", parent := 4, block_time := 12, chain_id := 7 }

/-- A concrete getProgramLogs RPC result whose context slot is 5: one
entry with one qualifying log line. -/
def exRes3 : ProgramLogsResult :=
  { context := { slot := 5 }
    value := [{ signature := "sig", logs := ["Program p hello", "noise"] }] }

/-- A chain client oracle whose slot n has blockhash "c<n>" and parent
n - 1, with trivial decode and always-succeeding handlers. -/
def exWorld5 : World :=
  { latestSlot := .ok 2
    slotByNumber := fun n => .ok ⟨n, some (n - 1), "c" ++ toString n, none, [], 1⟩
    programLogs := fun _ _ _ => .ok []
    decodeLog := fun _ _ => .error "no decoder"
    handleSlotRes := fun _ => .ok ()
    handleLogRes := fun _ => .ok () }

/-- Poller config on chain 1 with reorg depth 1. -/
def exCfg5 : SolanaChainPollerConfig := ⟨1, 0, [], 1, 100, true⟩

/-- A stored record at slot 1 whose blockhash disagrees with exWorld5's
canonical "c1". -/
def exRec5 : SlotRecord :=
  { slot := 1, blockhash := "h1", parent := 0, block_time := 0, chain_id := 1 }

/-- Open store holding only exRec5. -/
def exStore5 : InMemoryChainPollerPersistence :=
  { last_processed_slots := fun _ => none
    slots := fun k => if k = "slot:1:1" then some exRec5 else none
    closed := false }

/-- The reorg start slot at height 2 used against exWorld5. -/
def exStart5 : SolanaSlot := ⟨2, some 0, "c2x", none, [], 1⟩

/-- Chain client whose slot 1 blockhash "h1" agrees with the stored
record, so the ancestry walk finds a common ancestor at once. -/
def exWorld7 : World :=
  { latestSlot := .ok 2
    slotByNumber := fun n => .ok ⟨n, some (n - 1), "h" ++ toString n, none, [], 1⟩
    programLogs := fun _ _ _ => .ok []
    decodeLog := fun _ _ => .error "no decoder"
    handleSlotRes := fun _ => .ok ()
    handleLogRes := fun _ => .ok () }

/-- Poller config on chain 1 for the common-ancestor scenario. -/
def exCfg7 : SolanaChainPollerConfig := ⟨1, 0, [], 10, 100, true⟩

/-- Stored record at slot 1 agreeing with exWorld7's canonical "h1". -/
def exRec7 : SlotRecord :=
  { slot := 1, blockhash := "h1", parent := 0, block_time := 0, chain_id := 1 }

/-- Open store holding exRec7, with the pointer parked elsewhere (at 9)
so the rewind is visible. -/
def exStore7 : InMemoryChainPollerPersistence :=
  { last_processed_slots := fun k => if k = "1" then some 9 else none
    slots := fun k => if k = "slot:1:1" then some exRec7 else none
    closed := false }

/-- Chain client whose every slot carries no parent field. -/
def exWorld9 : World :=
  { latestSlot := .ok 8
    slotByNumber := fun n => .ok ⟨n, none, "b" ++ toString n, none, [], 1⟩
    programLogs := fun _ _ _ => .ok []
    decodeLog := fun _ _ => .error "no decoder"
    handleSlotRes := fun _ => .ok ()
    handleLogRes := fun _ => .ok () }

/-- Poller config on chain 1 used with exWorld9. -/
def exCfg9 : SolanaChainPollerConfig := ⟨1, 0, [], 10, 1000, true⟩

/-- Healthy chain two slots ahead of the stored cursor: slot n has
parent n - 1 and blockhash "h<n>", tip 102. -/
def exWorld1 : World :=
  { latestSlot := .ok 102
    slotByNumber := fun n =>
      .ok ⟨n, some (n - 1), "h" ++ toString n, none, [], 1⟩
    programLogs := fun _ _ _ => .ok []
    decodeLog := fun _ _ => .error "no decoder"
    handleSlotRes := fun _ => .ok ()
    handleLogRes := fun _ => .ok () }

/-- Poller config on chain 1, no interesting programs, pruning far
away. -/
def exCfg1 : SolanaChainPollerConfig := ⟨1, 0, [], 10, 1000, true⟩

/-- Tick-start record at slot 100 agreeing with exWorld1. -/
def exRec1 : SlotRecord :=
  { slot := 100, blockhash := "h100", parent := 99, block_time := 0
    chain_id := 1 }

/-- Open store whose cursor points at exRec1. -/
def exStore1 : InMemoryChainPollerPersistence :=
  { last_processed_slots := fun k => if k = "1" then some 100 else none
    slots := fun k => if k = "slot:1:100" then some exRec1 else none
    closed := false }

/-- Chain whose next slot 101 claims parent 99, so the very first step
of the tick trips the parent check; the ancestry walk then finds the
stored slot 100 intact and no orphans. -/
def exWorld2 : World :=
  { latestSlot := .ok 101
    slotByNumber := fun n =>
      if n = 101 then .ok ⟨101, some 99, "r101", none, [], 1⟩
      else .ok ⟨n, some (n - 1), "h" ++ toString n, none, [], 1⟩
    programLogs := fun _ _ _ => .ok []
    decodeLog := fun _ _ => .error "no decoder"
    handleSlotRes := fun _ => .ok ()
    handleLogRes := fun _ => .ok () }

/-- Poller config on chain 1 for the swallowed-reconcile scenario. -/
def exCfg2 : SolanaChainPollerConfig := ⟨1, 0, [], 10, 1000, true⟩

/-- Tick-start record at slot 100 agreeing with exWorld2's canonical
slot 100. -/
def exRec2 : SlotRecord :=
  { slot := 100, blockhash := "h100", parent := 99, block_time := 0
    chain_id := 1 }

/-- Open store whose cursor points at exRec2. -/
def exStore2 : InMemoryChainPollerPersistence :=
  { last_processed_slots := fun k => if k = "1" then some 100 else none
    slots := fun k => if k = "slot:1:100" then some exRec2 else none
    closed := false }

/-- The slot processed in the two-log handler scenarios. -/
def exSlot6 : SolanaSlot := ⟨7, some 6, "h7", none, [], 1⟩

/-- First raw log of slot 7. -/
def exLog61 : SolanaProgramLog :=
  { program_id := "p", log_index := 0, signature := "sig", slot := 7
    block_time := none, log_message := "Program p one"
    instruction_index := 0 }

/-- Second raw log of slot 7. -/
def exLog62 : SolanaProgramLog :=
  { program_id := "p", log_index := 1, signature := "sig", slot := 7
    block_time := none, log_message := "Program p two"
    instruction_index := 0 }

/-- Decoded form of exLog61 under the trivial decoder below. -/
def exD61 : DecodedLog := ⟨0, "p", [], "Unknown", []⟩

/-- Decoded form of exLog62 under the trivial decoder below. -/
def exD62 : DecodedLog := ⟨1, "p", [], "Unknown", []⟩

/-- Poller config on chain 1 watching program "p". -/
def exCfg6 : SolanaChainPollerConfig := ⟨1, 0, ["p"], 10, 1000, true⟩

/-- Two-log world whose handle_slot errors while both handle_log calls
succeed. -/
def exWorld6a : World :=
  { latestSlot := .ok 7
    slotByNumber := fun n => .ok ⟨n, some (n - 1), "h7", none, [], 1⟩
    programLogs := fun _ _ _ => .ok [exLog61, exLog62]
    decodeLog := fun pid lg => .ok ⟨lg.log_index, pid, [], "Unknown", []⟩
    handleSlotRes := fun _ => .error "slot handler down"
    handleLogRes := fun _ => .ok () }

/-- Two-log world whose handle_slot succeeds while handle_log fails on
the first log. -/
def exWorld6b : World :=
  { latestSlot := .ok 7
    slotByNumber := fun n => .ok ⟨n, some (n - 1), "h7", none, [], 1⟩
    programLogs := fun _ _ _ => .ok [exLog61, exLog62]
    decodeLog := fun pid lg => .ok ⟨lg.log_index, pid, [], "Unknown", []⟩
    handleSlotRes := fun _ => .ok ()
    handleLogRes := fun lw =>
      if lw.raw_log = exLog61 then .error "log handler down" else .ok () }

/- ===================== theorems ===================== -/

/-- Every log built by the inner loop of get_program_logs carries the
"Program <program_id>" head and the response context slot. -/
theorem collect_entry_logs_mem (program_id : String) (ctx_slot : Nat)
    (sig : String) (pairs : List (Nat × String)) (l : SolanaProgramLog)
    (hl : l ∈ collect_entry_logs program_id ctx_slot sig pairs) :
    starts_with l.log_message ("Program " ++ program_id) = true ∧
      l.slot = ctx_slot := by
  induction pairs with
  | nil => simp [collect_entry_logs] at hl
  | cons p rest ih =>
    obtain ⟨i, m⟩ := p
    by_cases h : starts_with m ("Program " ++ program_id)
    · rw [collect_entry_logs, if_pos h] at hl
      rcases List.mem_cons.mp hl with h1 | h1
      · subst h1; exact ⟨h, rfl⟩
      · exact ih h1
    · rw [collect_entry_logs, if_neg h] at hl
      exact ih hl

/-- The log messages built by the inner loop of get_program_logs are
exactly the qualifying input lines, in order. -/
theorem collect_entry_logs_map_msg (program_id : String) (ctx_slot : Nat)
    (sig : String) (pairs : List (Nat × String)) :
    (collect_entry_logs program_id ctx_slot sig pairs).map
        (fun l => l.log_message)
      = (pairs.map Prod.snd).filter
          (fun m => starts_with m ("Program " ++ program_id)) := by
  induction pairs with
  | nil => simp [collect_entry_logs]
  | cons p rest ih =>
    obtain ⟨i, m⟩ := p
    by_cases h : starts_with m ("Program " ++ program_id)
    · rw [collect_entry_logs, if_pos h]
      simp [List.filter_cons, h, ih]
    · rw [collect_entry_logs, if_neg h]
      simp [List.filter_cons, h, ih]

/-- C3 counterexample: the reference client ignores from_slot and
to_slot; on a response whose context slot is 5 a call with range
[10, 10] returns an entry whose slot is 5, outside the range, refuting
the claim as stated. -/
theorem C3_counterexample :
    ¬ (∀ l ∈ get_program_logs "p" 10 10 exRes3,
        10 ≤ l.slot ∧ l.slot ≤ 10) := by
  decide

/-- C3 amended: every entry returned by get_program_logs has a
log_message beginning with "Program <program_id>" and the slot of the
RPC response context (which need not lie in [from_slot, to_slot]: the
bounds are ignored by the client), no qualifying log line is dropped,
and order is preserved: the returned messages are exactly the
qualifying lines of the response, in response order. -/
theorem C3_program_logs_amended (program_id : String)
    (from_slot to_slot : Nat) (res : ProgramLogsResult) :
    (∀ l ∈ get_program_logs program_id from_slot to_slot res,
        starts_with l.log_message ("Program " ++ program_id) = true ∧
          l.slot = res.context.slot) ∧
      (get_program_logs program_id from_slot to_slot res).map
          (fun l => l.log_message)
        = (res.value.map (fun e =>
            e.logs.filter
              (fun m => starts_with m ("Program " ++ program_id)))).flatten := by
  constructor
  · intro l hl
    rw [get_program_logs, List.mem_flatten] at hl
    obtain ⟨inner, hin, hl⟩ := hl
    rw [List.mem_map] at hin
    obtain ⟨entry, _, hentry⟩ := hin
    subst hentry
    exact collect_entry_logs_mem program_id res.context.slot
      entry.signature entry.logs.enum l hl
  · rw [get_program_logs, List.map_flatten, List.map_map]
    simp only [Function.comp_def, collect_entry_logs_map_msg,
      List.enum_map_snd]

/-- C3 witness: the amended statement evaluated on the concrete response,
with the membership hypothesis discharged on its single returned
entry. -/
theorem C3_witness :
    ((get_program_logs "p" 10 10 exRes3).map (fun l => l.log_message)
        = [["Program p hello"]].flatten) ∧
      starts_with "Program p hello" ("Program " ++ "p") = true ∧
      (5 : Nat) = exRes3.context.slot := by
  have h := C3_program_logs_amended "p" 10 10 exRes3
  exact ⟨h.2,
    h.1 ⟨"p", 0, "sig", 5, none, "Program p hello", 0⟩ (by decide)⟩

/-- The ancestry-walk loop of the source and the loop written from the
spec agree on every visit list that does not contain slot 0. -/
theorem find_orphans_loop_eq_spec (w : World)
    (cfg : SolanaChainPollerConfig) :
    ∀ l : List Nat, 0 ∉ l →
      ∀ s acc, SolanaChainPoller.find_orphans_loop w cfg s acc l
        = SolanaChainPoller.spec_orphans_loop w cfg s acc l := by
  intro l
  induction l with
  | nil => intro _ s acc; rfl
  | cons n rest ih =>
    intro h s acc
    have hn : ¬ n = 0 := fun e => h (by simp [e])
    have hrest : 0 ∉ rest := fun hr => h (List.mem_cons_of_mem _ hr)
    cases hsb : w.slotByNumber n with
    | error e =>
      simp [SolanaChainPoller.find_orphans_loop,
        SolanaChainPoller.spec_orphans_loop, hn, hsb]
    | ok canon =>
      cases hg : InMemoryChainPollerPersistence.get_slot s cfg.chain_id n with
      | error e =>
        simp [SolanaChainPoller.find_orphans_loop,
          SolanaChainPoller.spec_orphans_loop, hn, hsb, hg]
      | ok stored =>
        cases stored with
        | some record =>
          by_cases hb : canon.blockhash = record.blockhash
          · simp [SolanaChainPoller.find_orphans_loop,
              SolanaChainPoller.spec_orphans_loop, hn, hsb, hg, hb]
          · simp [SolanaChainPoller.find_orphans_loop,
              SolanaChainPoller.spec_orphans_loop, hn, hsb, hg, hb,
              ih hrest]
        | none =>
          have hbh : (slot_record_of cfg.chain_id canon).blockhash
              = canon.blockhash := rfl
          cases hsv : InMemoryChainPollerPersistence.save_slot s
              (slot_record_of cfg.chain_id canon) with
          | error e =>
            simp [SolanaChainPoller.find_orphans_loop,
              SolanaChainPoller.spec_orphans_loop, hn, hsb, hg, hsv, hbh]
          | ok s1 =>
            simp [SolanaChainPoller.find_orphans_loop,
              SolanaChainPoller.spec_orphans_loop, hn, hsb, hg, hsv, hbh]

/-- A trailing slot number 0 is where the source loop stops, which is
the same outcome as exhausting the list. -/
theorem find_orphans_loop_append_zero (w : World)
    (cfg : SolanaChainPollerConfig) :
    ∀ l : List Nat, 0 ∉ l →
      ∀ s acc, SolanaChainPoller.find_orphans_loop w cfg s acc (l ++ [0])
        = SolanaChainPoller.find_orphans_loop w cfg s acc l := by
  intro l
  induction l with
  | nil =>
    intro _ s acc
    simp [SolanaChainPoller.find_orphans_loop]
  | cons n rest ih =>
    intro h s acc
    have hn : ¬ n = 0 := fun e => h (by simp [e])
    have hrest : 0 ∉ rest := fun hr => h (List.mem_cons_of_mem _ hr)
    cases hsb : w.slotByNumber n with
    | error e =>
      simp [SolanaChainPoller.find_orphans_loop, hn, hsb]
    | ok canon =>
      cases hg : InMemoryChainPollerPersistence.get_slot s cfg.chain_id n with
      | error e =>
        simp [SolanaChainPoller.find_orphans_loop, hn, hsb, hg]
      | ok stored =>
        cases stored with
        | some record =>
          by_cases hb : canon.blockhash = record.blockhash
          · simp [SolanaChainPoller.find_orphans_loop, hn, hsb, hg, hb]
          · simp [SolanaChainPoller.find_orphans_loop, hn, hsb, hg, hb,
              ih hrest]
        | none =>
          have hbh : (slot_record_of cfg.chain_id canon).blockhash
              = canon.blockhash := rfl
          cases hsv : InMemoryChainPollerPersistence.save_slot s
              (slot_record_of cfg.chain_id canon) with
          | error e =>
            simp [SolanaChainPoller.find_orphans_loop, hn, hsb, hg, hsv, hbh]
          | ok s1 =>
            simp [SolanaChainPoller.find_orphans_loop, hn, hsb, hg, hsv, hbh]

/-- The source visit list is the spec visit list, with a trailing 0
exactly when the saturating subtraction bottoms out on a positive
start. -/
theorem desc_range_eq_spec (start depth : Nat) :
    SolanaChainPoller.desc_range start depth
      = SolanaChainPoller.spec_desc_range start depth ++
          (if start - depth = 0 ∧ 1 ≤ start then [0] else []) := by
  rcases Nat.eq_zero_or_pos start with h0 | h1
  · subst h0
    simp [SolanaChainPoller.desc_range, SolanaChainPoller.spec_desc_range]
  · by_cases hd : start - depth = 0
    · rw [if_pos ⟨hd, h1⟩]
      have hmin : min depth start = start := by omega
      rw [SolanaChainPoller.desc_range, SolanaChainPoller.spec_desc_range,
        hmin, hd]
      rw [show max 1 0 = 1 from by decide]
      obtain ⟨k, rfl⟩ : ∃ k, start = k + 1 := ⟨start - 1, by omega⟩
      rw [List.range'_succ, List.reverse_cons]
      simp
    · rw [if_neg (fun hc => hd hc.1), List.append_nil,
        SolanaChainPoller.desc_range, SolanaChainPoller.spec_desc_range]
      have hmax : max 1 (start - depth) = start - depth := by omega
      rw [hmax]
      rw [show start - (start - depth) = min depth start from by omega]

/-- The spec visit list never contains slot 0. -/
theorem zero_not_mem_spec_desc_range (start depth : Nat) :
    0 ∉ SolanaChainPoller.spec_desc_range start depth := by
  simp [SolanaChainPoller.spec_desc_range, List.mem_reverse,
    List.mem_range'_1]

/-- C4: find_orphaned_slots behaves exactly as the spec describes it:
the slots from start_slot.slot - 1 down to max(1, start_slot.slot -
max_depth) are visited in strictly descending order, slot 0 is never
visited, a visited record (stored, or synthesized from the canonical
slot when absent) is appended to the orphan list exactly when the
canonical blockhash differs, the first match re-saves the stored record
and returns the accumulated list immediately, and an exhausted range
returns the accumulated list. Stated as equality of the source walk
with the walk written from the spec wording, on every world and
state. -/
theorem C4_find_orphaned_slots_matches_spec (w : World)
    (cfg : SolanaChainPollerConfig)
    (s : InMemoryChainPollerPersistence) (start_slot : SolanaSlot)
    (max_depth : Nat) :
    SolanaChainPoller.find_orphaned_slots w cfg s start_slot max_depth
      = SolanaChainPoller.spec_find_orphaned_slots w cfg s start_slot
          max_depth := by
  rw [SolanaChainPoller.find_orphaned_slots,
    SolanaChainPoller.spec_find_orphaned_slots, desc_range_eq_spec]
  by_cases h : start_slot.slot - max_depth = 0 ∧ 1 ≤ start_slot.slot
  · rw [if_pos h,
      find_orphans_loop_append_zero w cfg _
        (zero_not_mem_spec_desc_range start_slot.slot max_depth),
      find_orphans_loop_eq_spec w cfg _
        (zero_not_mem_spec_desc_range start_slot.slot max_depth)]
  · rw [if_neg h, List.append_nil,
      find_orphans_loop_eq_spec w cfg _
        (zero_not_mem_spec_desc_range start_slot.slot max_depth)]

/-- On an open store, the reconciliation loop notifies the handler for
every orphan in list order, succeeds, keeps the store open, and only
ever removes records (a NotFound deletion is tolerated and the walk
continues). -/
theorem reconcile_orphans_open (l : List SlotRecord) :
    ∀ s : InMemoryChainPollerPersistence, s.closed = false →
      (SolanaChainPoller.reconcile_orphans s l).trace
          = l.map (fun r => Event.handleReorg r.slot) ∧
        (SolanaChainPoller.reconcile_orphans s l).result = .ok () ∧
        (SolanaChainPoller.reconcile_orphans s l).state.closed = false ∧
        ∀ k, (SolanaChainPoller.reconcile_orphans s l).state.slots k
            = s.slots k ∨
          (SolanaChainPoller.reconcile_orphans s l).state.slots k = none := by
  induction l with
  | nil =>
    intro s hs
    exact ⟨rfl, rfl, hs, fun k => Or.inl rfl⟩
  | cons r rest ih =>
    intro s hs
    rw [SolanaChainPoller.reconcile_orphans]
    unfold InMemoryChainPollerPersistence.delete_slot
    rw [if_neg (by simp [hs])]
    cases hk : s.slots
        (InMemoryChainPollerPersistence.make_slot_record_key
          r.chain_id r.slot) with
    | none =>
      obtain ⟨h1, h2, h3, h4⟩ := ih s hs
      exact ⟨by simp [h1], by simp [h2], by simp [h3], fun k => by
        simpa using h4 k⟩
    | some v =>
      obtain ⟨h1, h2, h3, h4⟩ := ih
        { s with slots := fun k =>
            if k = (InMemoryChainPollerPersistence.make_slot_record_key
                r.chain_id r.slot) then none
            else s.slots k } hs
      refine ⟨by simp [h1], by simp [h2], by simp [h3], fun k => ?_⟩
      rcases h4 k with h | h
      · by_cases hkey :
          k = InMemoryChainPollerPersistence.make_slot_record_key
            r.chain_id r.slot
        · right; simpa [hkey] using h
        · left; simpa [hkey] using h
      · right; simpa using h

/-- On an open store, after the reconciliation loop every orphan's record
is absent. -/
theorem reconcile_orphans_deletes (l : List SlotRecord) :
    ∀ s : InMemoryChainPollerPersistence, s.closed = false →
      ∀ r ∈ l, (SolanaChainPoller.reconcile_orphans s l).state.slots
        (InMemoryChainPollerPersistence.make_slot_record_key
          r.chain_id r.slot) = none := by
  induction l with
  | nil => intro s hs r hr; simp at hr
  | cons q rest ih =>
    intro s hs r hr
    rw [SolanaChainPoller.reconcile_orphans]
    unfold InMemoryChainPollerPersistence.delete_slot
    rw [if_neg (by simp [hs])]
    cases hk : s.slots
        (InMemoryChainPollerPersistence.make_slot_record_key
          q.chain_id q.slot) with
    | none =>
      rcases List.mem_cons.mp hr with h | h
      · subst h
        rcases (reconcile_orphans_open rest s hs).2.2.2
            (InMemoryChainPollerPersistence.make_slot_record_key
              r.chain_id r.slot) with hrw | hrw
        · simpa [hrw] using hk
        · simpa using hrw
      · simpa using ih s hs r h
    | some v =>
      rcases List.mem_cons.mp hr with h | h
      · subst h
        rcases (reconcile_orphans_open rest
            { s with slots := fun k =>
                if k = (InMemoryChainPollerPersistence.make_slot_record_key
                    r.chain_id r.slot) then none
                else s.slots k } hs).2.2.2
            (InMemoryChainPollerPersistence.make_slot_record_key
              r.chain_id r.slot) with hrw | hrw
        · simp only [if_pos rfl] at hrw
          simpa using hrw
        · simpa using hrw
      · simpa using ih
          { s with slots := fun k =>
              if k = (InMemoryChainPollerPersistence.make_slot_record_key
                  q.chain_id q.slot) then none
              else s.slots k } hs r h

/-- The reconciliation loop never touches the per-chain last-processed
pointer map. -/
theorem reconcile_orphans_pointer (l : List SlotRecord) :
    ∀ s : InMemoryChainPollerPersistence,
      (SolanaChainPoller.reconcile_orphans s l).state.last_processed_slots
        = s.last_processed_slots := by
  induction l with
  | nil => intro s; rfl
  | cons r rest ih =>
    intro s
    rw [SolanaChainPoller.reconcile_orphans]
    cases hd : InMemoryChainPollerPersistence.delete_slot s
        r.chain_id r.slot with
    | ok s1 =>
      have : s1.last_processed_slots = s.last_processed_slots := by
        unfold InMemoryChainPollerPersistence.delete_slot at hd
        by_cases hc : s.closed
        · simp [hc] at hd
        · rw [if_neg (by simp [hc])] at hd
          cases hk : s.slots
              (InMemoryChainPollerPersistence.make_slot_record_key
                r.chain_id r.slot) with
          | none => simp [hk] at hd
          | some v =>
            rw [hk] at hd
            injection hd with hd
            subst hd
            rfl
      simpa [this] using ih s1
    | error e =>
      cases e with
      | NotFound => simpa using ih s
      | AlreadyExists => rfl
      | StoreClosed => rfl
      | InvalidChainId => rfl
      | Other m => rfl

/-- C5: reconcile_reorg fails with "No orphaned slots found" on an empty
orphan list, changing nothing beyond what find_orphaned_slots itself did
and issuing no handler notification; on a nonempty list (open store)
every orphan is notified via handle_reorg_slot in returned order (most
recent slot first, per C4's descending walk), each orphan's record ends
up deleted with NotFound tolerated, and reconciliation succeeds; while a
hard deletion error (closed store) aborts reconciliation right after the
first notification, before any further orphan is processed. -/
theorem C5_reconcile_reorg_behavior (w : World)
    (cfg : SolanaChainPollerConfig) (s : InMemoryChainPollerPersistence)
    (start_slot : SolanaSlot) :
    (∀ s1 tr1,
      SolanaChainPoller.find_orphaned_slots w cfg s start_slot
          cfg.max_reorg_depth = ⟨s1, tr1, .ok []⟩ →
        SolanaChainPoller.reconcile_reorg w cfg s start_slot
          = ⟨s1, tr1, .error "No orphaned slots found"⟩) ∧
      (∀ s1 tr1 l,
        SolanaChainPoller.find_orphaned_slots w cfg s start_slot
            cfg.max_reorg_depth = ⟨s1, tr1, .ok l⟩ →
        l ≠ [] → s1.closed = false →
          (SolanaChainPoller.reconcile_reorg w cfg s start_slot).trace
              = tr1 ++ l.map (fun r => Event.handleReorg r.slot) ∧
            (SolanaChainPoller.reconcile_reorg w cfg s start_slot).result
              = .ok () ∧
            ∀ r ∈ l,
              (SolanaChainPoller.reconcile_reorg w cfg s
                  start_slot).state.slots
                (InMemoryChainPollerPersistence.make_slot_record_key
                  r.chain_id r.slot) = none) ∧
      (∀ s1 tr1 r rest,
        SolanaChainPoller.find_orphaned_slots w cfg s start_slot
            cfg.max_reorg_depth = ⟨s1, tr1, .ok (r :: rest)⟩ →
        s1.closed = true →
          SolanaChainPoller.reconcile_reorg w cfg s start_slot
            = ⟨s1, tr1 ++ [Event.handleReorg r.slot],
                .error "Failed to delete orphaned slot: Storage is closed"⟩) := by
  refine ⟨?_, ?_, ?_⟩
  · intro s1 tr1 hf
    rw [SolanaChainPoller.reconcile_reorg, hf]
    simp
  · intro s1 tr1 l hf hne hopen
    rw [SolanaChainPoller.reconcile_reorg, hf]
    obtain ⟨h1, h2, _h3, _h4⟩ := reconcile_orphans_open l s1 hopen
    have hdel := reconcile_orphans_deletes l s1 hopen
    simp only [List.isEmpty_iff, hne, if_false]
    refine ⟨by simpa using h1, by simpa using h2, fun r hr => by
      simpa using hdel r hr⟩
  · intro s1 tr1 r rest hf hclosed
    rw [SolanaChainPoller.reconcile_reorg, hf]
    have : SolanaChainPoller.reconcile_orphans s1 (r :: rest)
        = ⟨s1, [Event.handleReorg r.slot],
            .error "Failed to delete orphaned slot: Storage is closed"⟩ := by
      rw [SolanaChainPoller.reconcile_orphans]
      unfold InMemoryChainPollerPersistence.delete_slot
      rw [if_pos hclosed]
      exact rfl
    simp [this]

/-- C5 witness: against exWorld5 the walk from exStart5 finds the single
orphan exRec5; reconciliation notifies handle_reorg_slot(1), deletes the
record and succeeds. -/
theorem C5_witness :
    (SolanaChainPoller.reconcile_reorg exWorld5 exCfg5 exStore5
          exStart5).trace
        = [Event.fetchSlot 1] ++
            [exRec5].map (fun r => Event.handleReorg r.slot) ∧
      (SolanaChainPoller.reconcile_reorg exWorld5 exCfg5 exStore5
          exStart5).result = .ok () ∧
      ∀ r ∈ [exRec5],
        (SolanaChainPoller.reconcile_reorg exWorld5 exCfg5 exStore5
            exStart5).state.slots
          (InMemoryChainPollerPersistence.make_slot_record_key
            r.chain_id r.slot) = none :=
  (C5_reconcile_reorg_behavior exWorld5 exCfg5 exStore5 exStart5).2.1
    exStore5 [Event.fetchSlot 1] [exRec5] rfl (by decide) rfl

/-- C7: when the ancestry walk reaches a visited slot n whose stored
record r matches the canonical blockhash, the walk stops with the
accumulated orphans and the re-save of r moves the per-chain
last-processed pointer to n (save_slot moves it unconditionally); the
subsequent reconciliation deletions never touch the pointer, so a
successful reorg reconciliation leaves the forward cursor rewound to
the common ancestor. -/
theorem C7_reorg_rewinds_cursor (w : World)
    (cfg : SolanaChainPollerConfig) (s : InMemoryChainPollerPersistence)
    (n : Nat) (rest : List Nat) (acc : List SlotRecord)
    (canon : SolanaSlot) (r : SlotRecord)
    (h0 : n ≠ 0)
    (h1 : w.slotByNumber n = .ok canon)
    (h2 : InMemoryChainPollerPersistence.get_slot s cfg.chain_id n
      = .ok (some r))
    (h3 : canon.blockhash = r.blockhash)
    (h4 : s.closed = false)
    (h5 : r.slot = n)
    (h6 : r.chain_id = cfg.chain_id) :
    ∃ s2, SolanaChainPoller.find_orphans_loop w cfg s acc (n :: rest)
        = ⟨s2, [Event.fetchSlot n], .ok acc⟩ ∧
      s2.last_processed_slots
          (InMemoryChainPollerPersistence.make_slot_key cfg.chain_id)
        = some n ∧
      ∀ l, (SolanaChainPoller.reconcile_orphans s2 l).state.last_processed_slots
          (InMemoryChainPollerPersistence.make_slot_key cfg.chain_id)
        = some n := by
  refine ⟨{ s with
      slots := fun k =>
        if k = (InMemoryChainPollerPersistence.make_slot_record_key
            r.chain_id r.slot) then some r
        else s.slots k
      last_processed_slots := fun k =>
        if k = (InMemoryChainPollerPersistence.make_slot_key r.chain_id)
          then some r.slot
        else s.last_processed_slots k }, ?_, ?_, ?_⟩
  · rw [SolanaChainPoller.find_orphans_loop, if_neg h0, h1, h2]
    have hsv : InMemoryChainPollerPersistence.save_slot s r
        = .ok { s with
            slots := fun k =>
              if k = (InMemoryChainPollerPersistence.make_slot_record_key
                  r.chain_id r.slot) then some r
              else s.slots k
            last_processed_slots := fun k =>
              if k = (InMemoryChainPollerPersistence.make_slot_key
                  r.chain_id) then some r.slot
              else s.last_processed_slots k } := by
      unfold InMemoryChainPollerPersistence.save_slot
      rw [if_neg (by simp [h4])]
    simp [h3, hsv]
  · simp [h6, h5]
  · intro l
    rw [reconcile_orphans_pointer]
    simp [h6, h5]

/-- C7 witness: on exWorld7/exStore7 the walk from height 2 stops at the
matching slot 1, and the pointer for chain 1 (previously 9) reads 1
afterwards, also after a reconciliation pass over no orphans. -/
theorem C7_witness :
    ∃ s2, SolanaChainPoller.find_orphans_loop exWorld7 exCfg7 exStore7 []
        [1] = ⟨s2, [Event.fetchSlot 1], .ok []⟩ ∧
      s2.last_processed_slots
          (InMemoryChainPollerPersistence.make_slot_key 1) = some 1 ∧
      ∀ l, (SolanaChainPoller.reconcile_orphans s2
          l).state.last_processed_slots
        (InMemoryChainPollerPersistence.make_slot_key 1) = some 1 :=
  C7_reorg_rewinds_cursor exWorld7 exCfg7 exStore7 1 [] []
    ⟨1, some 0, "h1", none, [], 1⟩ exRec7 (by decide) rfl rfl rfl rfl rfl rfl

/-- The ancestry-walk trace consists of chain fetches only. -/
theorem find_orphans_loop_trace_shape (w : World)
    (cfg : SolanaChainPollerConfig) :
    ∀ (l : List Nat) (s : InMemoryChainPollerPersistence)
      (acc : List SlotRecord),
      ∀ e ∈ (SolanaChainPoller.find_orphans_loop w cfg s acc l).trace,
        ∃ m, e = Event.fetchSlot m := by
  intro l
  induction l with
  | nil => intro s acc e he; simp [SolanaChainPoller.find_orphans_loop] at he
  | cons n rest ih =>
    intro s acc e he
    rw [SolanaChainPoller.find_orphans_loop] at he
    by_cases hn : n = 0
    · rw [if_pos hn] at he; simp at he
    · rw [if_neg hn] at he
      cases hsb : w.slotByNumber n with
      | error msg => rw [hsb] at he; simp at he; exact ⟨n, he⟩
      | ok canon =>
        rw [hsb] at he
        cases hg : InMemoryChainPollerPersistence.get_slot s
            cfg.chain_id n with
        | error pe => rw [hg] at he; simp at he; exact ⟨n, he⟩
        | ok stored =>
          rw [hg] at he
          cases stored with
          | some record =>
            by_cases hb : canon.blockhash = record.blockhash
            · cases hsv : InMemoryChainPollerPersistence.save_slot s
                  record with
              | error pe => simp [hb, hsv] at he; exact ⟨n, he⟩
              | ok s2 => simp [hb, hsv] at he; exact ⟨n, he⟩
            · simp [hb] at he
              rcases he with he1 | he1
              · exact ⟨n, he1⟩
              · exact ih _ _ e he1
          | none =>
            have hbh : (slot_record_of cfg.chain_id canon).blockhash
                = canon.blockhash := rfl
            cases hsv : InMemoryChainPollerPersistence.save_slot s
                (slot_record_of cfg.chain_id canon) with
            | error pe =>
              simp only [hsv] at he
              cases hsv2 : InMemoryChainPollerPersistence.save_slot s
                  (slot_record_of cfg.chain_id canon) with
              | error pe2 => simp [hbh, hsv2] at he; exact ⟨n, he⟩
              | ok s2 => simp [hbh, hsv2] at he; exact ⟨n, he⟩
            | ok s1 =>
              simp only [hsv] at he
              cases hsv2 : InMemoryChainPollerPersistence.save_slot s1
                  (slot_record_of cfg.chain_id canon) with
              | error pe2 => simp [hbh, hsv2] at he; exact ⟨n, he⟩
              | ok s2 => simp [hbh, hsv2] at he; exact ⟨n, he⟩

/-- The reconciliation-loop trace consists of handle_reorg_slot
notifications only. -/
theorem reconcile_orphans_trace_shape :
    ∀ (l : List SlotRecord) (s : InMemoryChainPollerPersistence),
      ∀ e ∈ (SolanaChainPoller.reconcile_orphans s l).trace,
        ∃ m, e = Event.handleReorg m := by
  intro l
  induction l with
  | nil => intro s e he; simp [SolanaChainPoller.reconcile_orphans] at he
  | cons r rest ih =>
    intro s e he
    rw [SolanaChainPoller.reconcile_orphans] at he
    cases hd : InMemoryChainPollerPersistence.delete_slot s
        r.chain_id r.slot with
    | ok s1 =>
      rw [hd] at he
      rcases List.mem_cons.mp (by simpa using he) with he1 | he1
      · exact ⟨r.slot, he1⟩
      · exact ih s1 e he1
    | error pe =>
      rw [hd] at he
      cases pe with
      | NotFound =>
        rcases List.mem_cons.mp (by simpa using he) with he1 | he1
        · exact ⟨r.slot, he1⟩
        · exact ih s e he1
      | AlreadyExists => simp at he; exact ⟨r.slot, he⟩
      | StoreClosed => simp at he; exact ⟨r.slot, he⟩
      | InvalidChainId => simp at he; exact ⟨r.slot, he⟩
      | Other m => simp at he; exact ⟨r.slot, he⟩

/-- The reorg-reconciliation trace consists of chain fetches and
handle_reorg_slot notifications only. -/
theorem reconcile_reorg_trace_shape (w : World)
    (cfg : SolanaChainPollerConfig) (s : InMemoryChainPollerPersistence)
    (start_slot : SolanaSlot) :
    ∀ e ∈ (SolanaChainPoller.reconcile_reorg w cfg s start_slot).trace,
      (∃ m, e = Event.fetchSlot m) ∨ (∃ m, e = Event.handleReorg m) := by
  intro e he
  rw [SolanaChainPoller.reconcile_reorg] at he
  cases hf : (SolanaChainPoller.find_orphaned_slots w cfg s start_slot
      cfg.max_reorg_depth).result with
  | error msg =>
    rw [hf] at he
    simp only at he
    exact Or.inl (find_orphans_loop_trace_shape w cfg _ _ _ e he)
  | ok orphans =>
    rw [hf] at he
    by_cases hemp : orphans.isEmpty
    · simp only [hemp, if_true, ite_true] at he
      exact Or.inl (find_orphans_loop_trace_shape w cfg _ _ _ e he)
    · simp only [hemp, if_false, ite_false, Bool.false_eq_true] at he
      rcases List.mem_append.mp (by simpa using he) with he1 | he1
      · exact Or.inl (find_orphans_loop_trace_shape w cfg _ _ _ e he1)
      · exact Or.inr (reconcile_orphans_trace_shape orphans _ e he1)

/-- The per-slot log-pipeline trace consists of handle_log dispatches
only. -/
theorem process_logs_loop_trace_shape (w : World)
    (cfg : SolanaChainPollerConfig) (slot : SolanaSlot) :
    ∀ (logs : List SolanaProgramLog)
      (s : InMemoryChainPollerPersistence),
      ∀ e ∈ (SolanaChainPoller.process_logs_loop w cfg s slot logs).trace,
        ∃ lw, e = Event.handleLog lw := by
  intro logs
  induction logs with
  | nil =>
    intro s e he
    rw [SolanaChainPoller.process_logs_loop] at he
    cases hsv : InMemoryChainPollerPersistence.save_slot s
        (slot_record_of cfg.chain_id slot) with
    | error pe => rw [hsv] at he; simp at he
    | ok s1 => rw [hsv] at he; simp at he
  | cons log rest ih =>
    intro s e he
    rw [SolanaChainPoller.process_logs_loop] at he
    cases hdl : w.decodeLog log.program_id log with
    | error msg => simp [hdl] at he
    | ok d =>
      cases hh : w.handleLogRes ⟨d, log, slot⟩ with
      | error msg => simp [hdl, hh] at he; exact ⟨_, he⟩
      | ok u =>
        simp [hdl, hh] at he
        rcases he with he1 | he1
        · exact ⟨_, he1⟩
        · exact ih s e he1

/-- The process_slot_logs trace consists of handle_log dispatches
only. -/
theorem process_slot_logs_trace_shape (w : World)
    (cfg : SolanaChainPollerConfig) (s : InMemoryChainPollerPersistence)
    (slot : SolanaSlot) :
    ∀ e ∈ (SolanaChainPoller.process_slot_logs w cfg s slot).trace,
      ∃ lw, e = Event.handleLog lw := by
  intro e he
  rw [SolanaChainPoller.process_slot_logs] at he
  cases hf : SolanaChainPoller.fetch_logs_for_interesting_programs_for_slot
      w cfg slot.slot with
  | error msg => rw [hf] at he; simp at he
  | ok logs =>
    rw [hf] at he
    exact process_logs_loop_trace_shape w cfg slot logs s e he

/-- C9: a fetched slot with no parent field is treated as parent 0 by the
parent-linkage check: if the tick-start stored slot number is nonzero the
step declares a reorg (with actual parent 0), and only a tick-start slot
number of 0 lets the slot proceed to handle_slot. -/
theorem C9_absent_parent_defaults_to_zero (w : World)
    (cfg : SolanaChainPollerConfig) (s : InMemoryChainPollerPersistence)
    (expected_parent n : Nat) (rest : List Nat) (canon : SolanaSlot)
    (h1 : w.slotByNumber n = .ok canon)
    (h2 : canon.parent = none) :
    (expected_parent ≠ 0 →
        ((SolanaChainPoller.process_slots_loop w cfg s expected_parent
            (n :: rest)).trace).take 2
          = [Event.fetchSlot n,
              Event.reorgDetected n expected_parent 0]) ∧
      (expected_parent = 0 →
        ((SolanaChainPoller.process_slots_loop w cfg s expected_parent
            (n :: rest)).trace).take 2
          = [Event.fetchSlot n, Event.handleSlot canon]) := by
  constructor
  · intro hne
    rw [SolanaChainPoller.process_slots_loop, h1]
    simp only [h2, Option.getD_none]
    rw [if_pos (Ne.symm hne)]
    simp
  · intro heq
    subst heq
    rw [SolanaChainPoller.process_slots_loop, h1]
    simp only [h2, Option.getD_none]
    rw [if_neg (by simp)]
    cases ho : (SolanaChainPoller.process_slot_logs w cfg s canon).result with
    | error msg => simp [ho]
    | ok stored => simp [ho]

/-- C9 witness: against exWorld9 (no parent fields), the step at slot 7
with tick-start slot 5 declares a reorg with actual parent 0, while the
same step with tick-start slot 0 proceeds to handle_slot. -/
theorem C9_witness :
    (((SolanaChainPoller.process_slots_loop exWorld9 exCfg9
          InMemoryChainPollerPersistence.new 5 [7]).trace).take 2
        = [Event.fetchSlot 7, Event.reorgDetected 7 5 0]) ∧
      (((SolanaChainPoller.process_slots_loop exWorld9 exCfg9
          InMemoryChainPollerPersistence.new 0 [7]).trace).take 2
        = [Event.fetchSlot 7,
            Event.handleSlot ⟨7, none, "b7", none, [], 1⟩]) :=
  ⟨(C9_absent_parent_defaults_to_zero exWorld9 exCfg9
      InMemoryChainPollerPersistence.new 5 7 []
      ⟨7, none, "b7", none, [], 1⟩ rfl rfl).1 (by decide),
    (C9_absent_parent_defaults_to_zero exWorld9 exCfg9
      InMemoryChainPollerPersistence.new 0 7 []
      ⟨7, none, "b7", none, [], 1⟩ rfl rfl).2 rfl⟩

/-- C10: on the in-memory persistence, a successful save_slot of r makes
get_slot (r.chain_id, r.slot) return the structurally equal record and
makes get_last_processed_slot (r.chain_id) return that same record. -/
theorem C10_save_slot_round_trip
    (s : InMemoryChainPollerPersistence) (r : SlotRecord)
    (s1 : InMemoryChainPollerPersistence)
    (h : InMemoryChainPollerPersistence.save_slot s r = .ok s1) :
    InMemoryChainPollerPersistence.get_slot s1 r.chain_id r.slot
        = .ok (some r) ∧
      InMemoryChainPollerPersistence.get_last_processed_slot s1 r.chain_id
        = .ok (some r) := by
  unfold InMemoryChainPollerPersistence.save_slot at h
  by_cases hc : s.closed
  · simp [hc] at h
  · simp only [hc, Bool.false_eq_true, if_false, if_neg] at h
    injection h with h
    subst h
    constructor
    · simp [InMemoryChainPollerPersistence.get_slot, hc]
    · simp [InMemoryChainPollerPersistence.get_last_processed_slot, hc]

/-- C10 witness: the round trip evaluated on a concrete record and the
fresh store. -/
theorem C10_witness :
    InMemoryChainPollerPersistence.get_slot
        (save_result InMemoryChainPollerPersistence.new exRec10) 7 5
        = .ok (some exRec10) ∧
      InMemoryChainPollerPersistence.get_last_processed_slot
        (save_result InMemoryChainPollerPersistence.new exRec10) 7
        = .ok (some exRec10) :=
  C10_save_slot_round_trip InMemoryChainPollerPersistence.new exRec10
    (save_result InMemoryChainPollerPersistence.new exRec10) rfl

/-- C8: the constructor normalizes a zero max_reorg_depth to 10 and a
zero slot_history_size to 100, the stored reorg_check_enabled is true
whenever the normalized max_reorg_depth is positive, and every other
field (and the nonzero depth and history values) is stored unchanged. -/
theorem C8_new_config_normalization (c : SolanaChainPollerConfig) :
    (c.max_reorg_depth = 0 →
        (SolanaChainPoller.new_config c).max_reorg_depth = 10) ∧
      (c.max_reorg_depth ≠ 0 →
        (SolanaChainPoller.new_config c).max_reorg_depth
          = c.max_reorg_depth) ∧
      (c.slot_history_size = 0 →
        (SolanaChainPoller.new_config c).slot_history_size = 100) ∧
      (c.slot_history_size ≠ 0 →
        (SolanaChainPoller.new_config c).slot_history_size
          = c.slot_history_size) ∧
      ((SolanaChainPoller.new_config c).max_reorg_depth > 0 →
        (SolanaChainPoller.new_config c).reorg_check_enabled = true) ∧
      (SolanaChainPoller.new_config c).chain_id = c.chain_id ∧
      (SolanaChainPoller.new_config c).polling_interval
        = c.polling_interval ∧
      (SolanaChainPoller.new_config c).interesting_programs
        = c.interesting_programs := by
  simp only [SolanaChainPoller.new_config]
  split_ifs <;> simp_all

/-- C8 witness: normalization evaluated on a concrete config with both
values zero and the check disabled; all hypotheses discharged. -/
theorem C8_witness :
    (SolanaChainPoller.new_config
        ⟨9, 12, ["P"], 0, 0, false⟩).max_reorg_depth = 10 ∧
      (SolanaChainPoller.new_config
        ⟨9, 12, ["P"], 0, 0, false⟩).slot_history_size = 100 ∧
      (SolanaChainPoller.new_config
        ⟨9, 12, ["P"], 0, 0, false⟩).reorg_check_enabled = true ∧
      (SolanaChainPoller.new_config ⟨9, 12, ["P"], 0, 0, false⟩).chain_id
        = 9 ∧
      (SolanaChainPoller.new_config
          ⟨9, 12, ["P"], 0, 0, false⟩).polling_interval = 12 ∧
      (SolanaChainPoller.new_config
          ⟨9, 12, ["P"], 0, 0, false⟩).interesting_programs = ["P"] := by
  have h := C8_new_config_normalization ⟨9, 12, ["P"], 0, 0, false⟩
  exact ⟨h.1 rfl, h.2.2.1 rfl, h.2.2.2.2.1 (by decide), h.2.2.2.2.2.1,
    h.2.2.2.2.2.2.1, h.2.2.2.2.2.2.2⟩

/-- C1 counterexample: on a healthy chain two slots ahead (stored slot
100, tip 102), slot 101 is fetched, handled and persisted, and then slot
102 - whose fetched parent 101 equals the slot just successfully
processed in this very tick - is nonetheless flagged as a reorg: the
emitted warning records expected parent 100, the record read at the
start of the tick, not 101. The claim that the check compares against
the just-processed slot is therefore false: the inner rebinding of
latest_slot_record in the source loop is scoped to one iteration and the
comparison keeps using the tick-start record. -/
theorem C1_counterexample :
    (SolanaChainPoller.process_next_slot exWorld1 exCfg1 exStore1).trace
        = [Event.fetchSlot 101,
            Event.handleSlot ⟨101, some 100, "h101", none, [], 1⟩,
            Event.fetchSlot 102,
            Event.reorgDetected 102 100 101,
            Event.fetchSlot 101] ∧
      exWorld1.slotByNumber 102
        = .ok ⟨102, some 101, "h102", none, [], 1⟩ := by
  constructor
  · decide
  · rfl

/-- C1 amended: the parent-linkage check compares every slot of the
tick's range - the first and all later ones alike - against the
last-processed slot record read at the start of the tick; a reorg is
declared exactly when the fetched parent differs from that tick-start
slot number. Stated as: every reorg warning emitted by the tick loop
carries the tick-start expected parent, and an actual parent (the
fetched slot's parent defaulted to 0) that differs from it. -/
theorem C1_parent_check_uses_tick_start_record (w : World)
    (cfg : SolanaChainPollerConfig) (s : InMemoryChainPollerPersistence)
    (expected_parent : Nat) (ns : List Nat) :
    ∀ n exp act,
      Event.reorgDetected n exp act ∈
          (SolanaChainPoller.process_slots_loop w cfg s expected_parent
            ns).trace →
        exp = expected_parent ∧ act ≠ expected_parent ∧
          ∃ canon, w.slotByNumber n = .ok canon ∧
            act = canon.parent.getD 0 := by
  induction ns generalizing s with
  | nil =>
    intro n exp act h
    simp [SolanaChainPoller.process_slots_loop] at h
  | cons m rest ih =>
    intro n exp act h
    rw [SolanaChainPoller.process_slots_loop] at h
    cases hsb : w.slotByNumber m with
    | error msg => simp [hsb] at h
    | ok canon =>
      by_cases hp : canon.parent.getD 0 = expected_parent
      · cases ho : (SolanaChainPoller.process_slot_logs w cfg s
            canon).result with
        | error msg =>
          simp [hsb, hp, ho] at h
          obtain ⟨lw, hlw⟩ :=
            process_slot_logs_trace_shape w cfg s canon _ h
          simp at hlw
        | ok stored =>
          simp [hsb, hp, ho] at h
          rcases h with h | h
          · obtain ⟨lw, hlw⟩ :=
              process_slot_logs_trace_shape w cfg s canon _ h
            simp at hlw
          · exact ih _ n exp act h
      · simp [hsb, hp] at h
        rcases h with ⟨hn, hexp, hact⟩ | h
        · subst hn
          exact ⟨hexp, by rw [hact]; exact hp, canon, hsb, hact⟩
        · rcases reconcile_reorg_trace_shape w cfg s canon _ h with
            ⟨mm, hmm⟩ | ⟨mm, hmm⟩ <;> simp at hmm

/-- C1 witness: the amended statement applied to the concrete run of
exWorld1, at the reorg warning for slot 102. -/
theorem C1_witness :
    (100 : Nat) = 100 ∧ (101 : Nat) ≠ 100 ∧
      ∃ canon, exWorld1.slotByNumber 102 = .ok canon ∧
        101 = canon.parent.getD 0 :=
  C1_parent_check_uses_tick_start_record exWorld1 exCfg1 exStore1 100
    [101, 102] 102 100 101 (by decide)

/-- C2 counterexample: on exWorld2 the tick detects a reorg at slot 101
and invokes reconcile_reorg, which fails ("No orphaned slots found"),
yet process_next_slot returns Ok: the reconciliation error is logged and
discarded, not propagated as the tick's error. -/
theorem C2_counterexample :
    (SolanaChainPoller.reconcile_reorg exWorld2 exCfg2 exStore2
          ⟨101, some 99, "r101", none, [], 1⟩).result
        = .error "No orphaned slots found" ∧
      (SolanaChainPoller.process_next_slot exWorld2 exCfg2
          exStore2).trace
        = [Event.fetchSlot 101, Event.reorgDetected 101 100 99,
            Event.fetchSlot 100] ∧
      (SolanaChainPoller.process_next_slot exWorld2 exCfg2
          exStore2).result = .ok () := by
  refine ⟨rfl, by decide, rfl⟩

/-- C2 amended: when the tick loop detects a reorg it runs
reconcile_reorg and returns Ok unconditionally - the reconciliation
outcome (error or success) is discarded, so a reconciliation error does
not surface as the tick's error; the tick still stops at the detection
point (state and trace come from the reconciliation attempt), which is
what lets the next tick re-detect the still-violated parent linkage. -/
theorem C2_reconcile_errors_swallowed (w : World)
    (cfg : SolanaChainPollerConfig) (s : InMemoryChainPollerPersistence)
    (expected_parent n : Nat) (rest : List Nat) (canon : SolanaSlot)
    (h1 : w.slotByNumber n = .ok canon)
    (h2 : canon.parent.getD 0 ≠ expected_parent) :
    (SolanaChainPoller.process_slots_loop w cfg s expected_parent
          (n :: rest)).result = .ok () ∧
      (SolanaChainPoller.process_slots_loop w cfg s expected_parent
          (n :: rest)).state
        = (SolanaChainPoller.reconcile_reorg w cfg s canon).state ∧
      (SolanaChainPoller.process_slots_loop w cfg s expected_parent
          (n :: rest)).trace
        = Event.fetchSlot n
            :: Event.reorgDetected n expected_parent (canon.parent.getD 0)
            :: (SolanaChainPoller.reconcile_reorg w cfg s canon).trace := by
  refine ⟨?_, ?_, ?_⟩ <;>
    · rw [SolanaChainPoller.process_slots_loop, h1]
      simp [h2]

/-- C2 witness: the amended statement applied to the exWorld2 detection
at slot 101, whose reconciliation attempt errors. -/
theorem C2_witness :
    (SolanaChainPoller.process_slots_loop exWorld2 exCfg2 exStore2 100
          [101]).result = .ok () ∧
      (SolanaChainPoller.process_slots_loop exWorld2 exCfg2 exStore2 100
          [101]).state
        = (SolanaChainPoller.reconcile_reorg exWorld2 exCfg2 exStore2
            ⟨101, some 99, "r101", none, [], 1⟩).state ∧
      (SolanaChainPoller.process_slots_loop exWorld2 exCfg2 exStore2 100
          [101]).trace
        = Event.fetchSlot 101 :: Event.reorgDetected 101 100 99
            :: (SolanaChainPoller.reconcile_reorg exWorld2 exCfg2
                exStore2 ⟨101, some 99, "r101", none, [], 1⟩).trace :=
  C2_reconcile_errors_swallowed exWorld2 exCfg2 exStore2 100 101 []
    ⟨101, some 99, "r101", none, [], 1⟩ rfl (by decide)

/-- C6: for a slot whose log fetch yields two logs (both decoding), the
two handler error sites behave asymmetrically. (a) If handle_slot errors
while both handle_log calls succeed, the tick continues: both logs are
delivered, the SlotRecord is persisted via save_slot, pruning runs, and
the loop proceeds to the remaining slots - the conclusion does not
depend on the handle_slot error at all. (b) If the first handle_log
errors, the second log is never dispatched, the state is returned
unchanged (no SlotRecord persisted, so the unchanged last-processed
pointer makes the next tick re-process the same slot), and the error
aborts the tick with the process_slot_logs context. -/
theorem C6_handle_slot_vs_handle_log (w : World)
    (cfg : SolanaChainPollerConfig) (s : InMemoryChainPollerPersistence)
    (n : Nat) (rest : List Nat) (slot : SolanaSlot)
    (l1 l2 : SolanaProgramLog) (d1 d2 : DecodedLog)
    (hsb : w.slotByNumber n = .ok slot)
    (hfetch : SolanaChainPoller.fetch_logs_for_interesting_programs_for_slot
      w cfg slot.slot = .ok [l1, l2])
    (hd1 : w.decodeLog l1.program_id l1 = .ok d1)
    (hd2 : w.decodeLog l2.program_id l2 = .ok d2) :
    (∀ err, w.handleSlotRes slot = .error err →
      w.handleLogRes ⟨d1, l1, slot⟩ = .ok () →
      w.handleLogRes ⟨d2, l2, slot⟩ = .ok () →
      s.closed = false →
        InMemoryChainPollerPersistence.save_slot s
            (slot_record_of cfg.chain_id slot)
          = .ok (save_result s (slot_record_of cfg.chain_id slot)) ∧
        SolanaChainPoller.process_slot_logs w cfg s slot
          = ⟨save_result s (slot_record_of cfg.chain_id slot),
              [Event.handleLog ⟨d1, l1, slot⟩,
                Event.handleLog ⟨d2, l2, slot⟩],
              .ok (some (slot_record_of cfg.chain_id slot))⟩ ∧
        SolanaChainPoller.process_slots_loop w cfg s (slot.parent.getD 0)
            (n :: rest)
          = (let o2 := SolanaChainPoller.process_slots_loop w cfg
                (SolanaChainPoller.prune_step cfg
                  (save_result s (slot_record_of cfg.chain_id slot))
                  (slot_record_of cfg.chain_id slot))
                (slot.parent.getD 0) rest
             ⟨o2.state,
               Event.fetchSlot n :: Event.handleSlot slot ::
                 ([Event.handleLog ⟨d1, l1, slot⟩,
                    Event.handleLog ⟨d2, l2, slot⟩] ++ o2.trace),
               o2.result⟩)) ∧
      (∀ e, w.handleLogRes ⟨d1, l1, slot⟩ = .error e →
        SolanaChainPoller.process_slot_logs w cfg s slot
            = ⟨s, [Event.handleLog ⟨d1, l1, slot⟩], .error e⟩ ∧
          SolanaChainPoller.process_slots_loop w cfg s
              (slot.parent.getD 0) (n :: rest)
            = ⟨s, [Event.fetchSlot n, Event.handleSlot slot,
                  Event.handleLog ⟨d1, l1, slot⟩],
                .error ("Error fetching slot with logs: " ++ e)⟩) := by
  constructor
  · intro err _hse hl1 hl2 hopen
    have hsave : InMemoryChainPollerPersistence.save_slot s
        (slot_record_of cfg.chain_id slot)
        = .ok (save_result s (slot_record_of cfg.chain_id slot)) := by
      unfold save_result
      cases hsv : InMemoryChainPollerPersistence.save_slot s
          (slot_record_of cfg.chain_id slot) with
      | ok s1 => rfl
      | error pe =>
        unfold InMemoryChainPollerPersistence.save_slot at hsv
        rw [if_neg (by simp [hopen])] at hsv
        simp at hsv
    have hpsl : SolanaChainPoller.process_slot_logs w cfg s slot
        = ⟨save_result s (slot_record_of cfg.chain_id slot),
            [Event.handleLog ⟨d1, l1, slot⟩,
              Event.handleLog ⟨d2, l2, slot⟩],
            .ok (some (slot_record_of cfg.chain_id slot))⟩ := by
      rw [SolanaChainPoller.process_slot_logs, hfetch]
      simp [SolanaChainPoller.process_logs_loop, hd1, hd2, hl1, hl2,
        hsave]
    refine ⟨hsave, hpsl, ?_⟩
    rw [SolanaChainPoller.process_slots_loop, hsb]
    simp [hpsl]
  · intro e hl1err
    have hpsl : SolanaChainPoller.process_slot_logs w cfg s slot
        = ⟨s, [Event.handleLog ⟨d1, l1, slot⟩], .error e⟩ := by
      rw [SolanaChainPoller.process_slot_logs, hfetch]
      simp [SolanaChainPoller.process_logs_loop, hd1, hl1err]
    refine ⟨hpsl, ?_⟩
    rw [SolanaChainPoller.process_slots_loop, hsb]
    simp [hpsl]

/-- C6 witness: against exWorld6a (handle_slot down) slot 7's step
delivers both logs and persists the record before continuing, while
against exWorld6b (first handle_log down) the pipeline stops after the
first log with the state unchanged. -/
theorem C6_witness :
    (SolanaChainPoller.process_slots_loop exWorld6a exCfg6
          InMemoryChainPollerPersistence.new 6 [7]).trace
        = [Event.fetchSlot 7, Event.handleSlot exSlot6,
            Event.handleLog ⟨exD61, exLog61, exSlot6⟩,
            Event.handleLog ⟨exD62, exLog62, exSlot6⟩] ∧
      SolanaChainPoller.process_slot_logs exWorld6b exCfg6
          InMemoryChainPollerPersistence.new exSlot6
        = ⟨InMemoryChainPollerPersistence.new,
            [Event.handleLog ⟨exD61, exLog61, exSlot6⟩],
            .error "log handler down"⟩ := by
  constructor
  · have h := (C6_handle_slot_vs_handle_log exWorld6a exCfg6
        InMemoryChainPollerPersistence.new 7 [] exSlot6 exLog61 exLog62
        exD61 exD62 rfl rfl rfl rfl).1 "slot handler down" rfl rfl rfl
        rfl
    rw [show (6 : Nat) = exSlot6.parent.getD 0 from rfl, h.2.2]
    decide
  · exact ((C6_handle_slot_vs_handle_log exWorld6b exCfg6
      InMemoryChainPollerPersistence.new 7 [] exSlot6 exLog61 exLog62
      exD61 exD62 rfl rfl rfl rfl).2 "log handler down" rfl).1

end SolanaIndexer
